import Mathlib

/-!
Verification development for the CodeCriticAI frontend credential-lifecycle
code: a shallow embedding of
`src/frontend/src/services/axiosInstanceService.ts` (request/response
interceptors, single-flight refresh with `isRefreshing` / `failedQueue` /
`processQueue`), `src/frontend/src/services/authService.ts`
(`isTokenExpired`, `tryAutoLogin`) and
`src/frontend/electron/authStore.ts` (`deleteToken` removes both the
access and the refresh entry).

Modelling conventions: the JavaScript `string | null` becomes `Option String`
(with JS truthiness made explicit where the source relies on it), the two
keytar entries of the secure store become a `Store` record, and the
module-level mutable variables `isRefreshing` and `failedQueue` become
fields of a `CoordState` record threaded explicitly. The remote and the
transport are outside the embedded code, so each POST /auth/refresh is
represented by its raw transport outcome (`ExchangeOutcome`: a 2xx body, a
rejection carrying an HTTP status, or a network error without one).
Crucially, both refresh POSTs are issued through the same intercepted api
instance, so a transport failure of the refresh POST itself re-enters the
embedded response interceptor before anything settles: `renewalCycle` and
`awaitRefreshViaApi` chain that re-entry explicitly — a 401/422 rejection
of a refresh POST is enqueued as a waiter (the awaited promise then never
settles) or starts a second nested exchange, and only propagated
rejections reach the surrounding catch/finally.
-/

/-- The secure credential store (keytar via `window.electronAPI`):
`auth-token` and `refresh-auth-token` entries, each possibly absent. -/
structure Store where
  accessToken : Option String
  refreshToken : Option String
deriving Repr, DecidableEq

/-- An outbound request as the interceptors see it: its `_retry` marker and
its `headers.Authorization` value (absent when the caller set none). -/
structure Request where
  retry : Bool
  auth : Option String
deriving Repr, DecidableEq

/-- The module-level mutable state of `axiosInstanceService.ts`:
`isRefreshing`, `failedQueue` (each queued waiter holds the original
request its `.then` continuation will replay), and the credential store
it reads and writes through `window.electronAPI`. -/
structure CoordState where
  isRefreshing : Bool
  failedQueue : List Request
  store : Store
deriving Repr, DecidableEq

/-- What the response-error interceptor does with one incoming
authentication-failure candidate: begin the refresh exchange itself,
enqueue onto `failedQueue`, or fall through to `Promise.reject(error)`. -/
inductive HandlerAction where
  | startRefresh
  | enqueueWaiter
  | propagate
deriving Repr, DecidableEq

/-- `error.response?.status === 401 || error.response?.status === 422`. -/
def isAuthStatus (status : Nat) : Bool :=
  status == 401 || status == 422

/-- The synchronous prefix of the response-error interceptor, up to the
point where the chosen path suspends: guard
`(status === 401 || status === 422) && !originalRequest._retry`, then
`originalRequest._retry = true` and either push a waiter (when
`isRefreshing`) or set `isRefreshing = true` and start the exchange.
Returns the action taken, the updated module state, and the (possibly
retry-marked) request. -/
def handleAuthError (st : CoordState) (req : Request) (status : Nat) :
    HandlerAction × CoordState × Request :=
  if isAuthStatus status && !req.retry then
    let req' : Request := { req with retry := true }
    if st.isRefreshing then
      (.enqueueWaiter, { st with failedQueue := st.failedQueue ++ [req'] }, req')
    else
      (.startRefresh, { st with isRefreshing := true }, req')
  else
    (.propagate, st, req)

/-- Dispatch a batch of failing responses through the interceptor one after
another (single-threaded: the synchronous prefix of each handler runs to
its suspension point before the next handler starts). Each element pairs a
request with the status code of the failure it received. -/
def dispatchAll : CoordState → List (Request × Nat) → List HandlerAction × CoordState
  | st, [] => ([], st)
  | st, (r, s) :: rest =>
    let x := handleAuthError st r s
    let y := dispatchAll x.2.1 rest
    (x.1 :: y.1, y.2)

/-- `response.data?.token` followed by `if (!newToken) throw`: the refresh
response yields a usable token only when the field is present and truthy
(the empty string is falsy in JavaScript). -/
structure RefreshResponse where
  token : Option String
  refreshToken : Option String
deriving Repr, DecidableEq

/-- The token the success path extracts, `none` when the
`throw new Error("No token received on refresh.")` branch fires. -/
def extractToken (r : RefreshResponse) : Option String :=
  match r.token with
  | some t => if t = "" then none else some t
  | none => none

/-- `processQueue(error, token)`: every queued waiter is rejected with the
error when one is given, otherwise resolved with the token; the queue is
then emptied by the caller of this model (the resolution value of each
waiter is returned in queue order). -/
def processQueue (error : Option String) (token : Option String)
    (failedQueue : List Request) : List (Except String (Option String)) :=
  failedQueue.map fun _ =>
    match error with
    | some e => .error e
    | none => .ok token

/-- The `.then` continuation of a queued waiter: on resolution with a token
it sets `originalRequest.headers.Authorization = Bearer <token>` and
replays the request; on rejection the promise of the waiter rejects with the
error. (`some t` is interpolated as `t`; resolution with `null` would
interpolate as the string `"null"`, as JavaScript template literals do.) -/
def waiterContinuation (w : Request) : Except String (Option String) → Except String Request
  | .error e => .error e
  | .ok tok =>
    .ok { w with auth := some ("Bearer " ++ (match tok with | some t => t | none => "null")) }

deriving instance DecidableEq for Except

/-- Outcome of one full renewal cycle, after the awaited
`api.post("/auth/refresh", ...)` settles: the final module state, the
settled outcome of every queued waiter (in queue order, each either the
replayed request or the rejection), and the settled outcome of the caller
that started the exchange. -/
structure CompletionResult where
  state : CoordState
  waiterOutcomes : List (Except String Request)
  callerOutcome : Except String Request
deriving Repr, DecidableEq

/-- The failure path of the `try`/`catch`/`finally` in the response
interceptor: `processQueue(err, null)`, then
`window.electronAPI.deleteToken()` (which per `authStore.ts` deletes both
the access and the refresh entry), `Promise.reject(err)`, and
`isRefreshing = false` in the `finally`. -/
def completeRefreshFailure (st : CoordState) (err : String) : CompletionResult :=
  { state := { isRefreshing := false, failedQueue := [],
               store := { accessToken := none, refreshToken := none } }
    waiterOutcomes := st.failedQueue.map (fun w => waiterContinuation w (.error err))
    callerOutcome := .error err }

/-- The remainder of the renewal cycle GIVEN that the awaited
`api.post("/auth/refresh", ...)` settles — it fulfils with a 2xx body, or
its rejection is propagated back out of the re-entered response
interceptor (`renewalCycle` below decides whether it settles at all).
Success path (a response carrying a truthy `token`):
`saveToken(newToken)` (and nothing else is persisted — no
`saveRefreshToken` call exists on this path),
`originalRequest.headers.Authorization = Bearer <newToken>`,
`processQueue(null, newToken)`, replay of the original request, and
`isRefreshing = false` in the `finally`. A settled rejection, or a 2xx
body without a usable token (the `throw`), takes the failure path with the
corresponding error. -/
def completeRefresh (st : CoordState) (caller : Request)
    (resp : Except String RefreshResponse) : CompletionResult :=
  match resp with
  | .error e => completeRefreshFailure st e
  | .ok r =>
    match extractToken r with
    | none => completeRefreshFailure st "No token received on refresh."
    | some t =>
      { state := { isRefreshing := false, failedQueue := [],
                   store := { st.store with accessToken := some t } }
        waiterOutcomes := st.failedQueue.map (fun w => waiterContinuation w (.ok (some t)))
        callerOutcome := .ok { caller with auth := some ("Bearer " ++ t) } }

/-- The outbound request interceptor: `getToken()` from secure storage and,
when truthy, overwrite `config.headers.Authorization` with
`Bearer <token>`; otherwise the caller-supplied header (if any) is left in
place. Returns the Authorization header the transport observes. -/
def attachAuthHeader (store : Store) (configAuth : Option String) : Option String :=
  match store.accessToken with
  | some t => if t = "" then configAuth else some ("Bearer " ++ t)
  | none => configAuth

/-- The Authorization header the transport observes on the
`api.post("/auth/refresh", {}, { headers: { Authorization: Bearer <refreshToken> } })`
call issued by the response interceptor: the per-call config sets
`Bearer <refreshToken>` (JavaScript interpolates a `null` refresh token as
the string `"null"`), and the request interceptor then runs on this config
like on every other request through `api`. -/
def refreshRequestTransmittedAuth (store : Store) : Option String :=
  let configAuth : Option String :=
    some ("Bearer " ++ (match store.refreshToken with | some r => r | none => "null"))
  attachAuthHeader store configAuth

/-- The raw transport outcome of one POST /auth/refresh, before any
interceptor sees it: a 2xx response with its body, a rejection carrying
`error.response.status`, or a network error without a response (for which
`error.response?.status` is undefined). -/
inductive ExchangeOutcome where
  | ok (data : RefreshResponse)
  | httpError (status : Nat)
  | network
deriving Repr, DecidableEq

/-- What becomes of one renewal cycle of the response interceptor, refresh
POST included: the cycle settled (try/catch/finally ran to completion), or
the awaited refresh POST never settles (its own 401/422 rejection was
enqueued on `failedQueue` — resolving that waiter needs `processQueue`,
which needs this very await to finish first), or the re-entered
interceptor starts a second nested /auth/refresh exchange (possible only
when `isRefreshing` was false, i.e. outside the coordinator's own cycle). -/
inductive CycleOutcome where
  | settled (c : CompletionResult)
  | stuck (st : CoordState)
  | nested (st : CoordState)
deriving Repr, DecidableEq

/-- One full renewal cycle of the response interceptor. The refresh POST is
issued through the same api instance, so when the transport rejects it the
rejection first re-enters the response interceptor with the refresh POST's
own config (`refreshCfg`) before the surrounding try/catch can see it:
a network error has no `response.status`, fails the 401/422 guard, and is
propagated into the catch; an HTTP rejection goes through `handleAuthError`,
and only the propagate outcome reaches the catch — the enqueueWaiter
outcome leaves the awaited post pending forever (no waiter is rejected,
nothing is deleted, the finally never runs, `isRefreshing` stays true),
and the startRefresh outcome begins a second nested exchange. -/
def renewalCycle (st : CoordState) (caller : Request) (refreshCfg : Request)
    (out : ExchangeOutcome) : CycleOutcome :=
  match out with
  | .ok data => .settled (completeRefresh st caller (.ok data))
  | .network => .settled (completeRefresh st caller (.error "Network Error"))
  | .httpError s =>
    match handleAuthError st refreshCfg s with
    | (.propagate, _, _) => .settled (completeRefresh st caller (.error "Request failed"))
    | (.enqueueWaiter, st1, _) => .stuck st1
    | (.startRefresh, st1, _) => .nested st1

/-- The result of `jwtDecode` on a token string, abstracted: either the
decoder throws, or it yields a payload whose `exp` claim may be absent.
(`exp` is seconds since the epoch; the model keeps it as an integer.) -/
inductive DecodeResult where
  | failure
  | payload (exp : Option Int)
deriving Repr, DecidableEq

/-- `isTokenExpired` from `authService.ts`, parameterised by the decoder
and by `Date.now()` (milliseconds). `if (!token) return true` covers both
`null` and the empty string (falsy); a decode exception returns `true`;
`if (!exp) return true` covers an absent claim and the falsy value `0`;
otherwise the result is `Date.now() >= exp * 1000`. -/
def isTokenExpired (decode : String → DecodeResult) (now : Int) :
    Option String → Bool
  | none => true
  | some t =>
    if t = "" then true
    else
      match decode t with
      | .failure => true
      | .payload none => true
      | .payload (some e) => if e = 0 then true else decide (now ≥ e * 1000)

/-- JavaScript truthiness of a `string | null` value. -/
def truthy : Option String → Bool
  | none => false
  | some s => s ≠ ""

/-- What the `await api.post("/auth/refresh", ...)` inside `tryAutoLogin`
comes to, interceptor re-entry included: whether the awaited promise ever
settles (and with what: a fulfilled body or a rejection), the credential
store as the interceptor side effects left it, and how many /auth/refresh
exchanges went over the wire. `settled = none` means the promise is
pending forever and `tryAutoLogin` never returns. -/
structure AwaitedRefresh where
  settled : Option (Except String RefreshResponse)
  store : Store
  exchanges : Nat
deriving Repr, DecidableEq

/-- The refresh POST of `tryAutoLogin` (exchange `out1`) as routed through
the intercepted api instance at startup, when the interceptor module state
is idle (`isRefreshing = false`, empty queue). A 2xx response or a
rejection that is a network error or a non-401/422 status settles directly
(the response interceptor guard fails and the rejection is propagated).
A 401/422 rejection re-enters the response interceptor, which — finding
`_retry` unset and `isRefreshing` false — sets `isRefreshing` and starts
its own nested exchange `out2`:
on a nested 2xx with a truthy token it saves that token, drains the empty
queue, and replays the original refresh config (a third exchange `out3`,
whose `_retry` is now set, so any failure of it is propagated and settles
the original await — the surrounding catch no longer runs, the interceptor
already returned);
on a nested token-less 2xx or a nested propagated failure the
interceptor's catch runs `processQueue(err)`, deletes BOTH stored
credentials via deleteToken, and rejects;
on a nested 401/422 rejection the nested post is enqueued as a waiter
(`isRefreshing` is true) and nothing ever settles. -/
def awaitRefreshViaApi (store : Store) (out1 out2 out3 : ExchangeOutcome) :
    AwaitedRefresh :=
  match out1 with
  | .ok data => ⟨some (.ok data), store, 1⟩
  | .network => ⟨some (.error "Network Error"), store, 1⟩
  | .httpError s =>
    if isAuthStatus s then
      match out2 with
      | .ok data2 =>
        match extractToken data2 with
        | some t2 =>
          let store2 : Store := { store with accessToken := some t2 }
          match out3 with
          | .ok data3 => ⟨some (.ok data3), store2, 3⟩
          | .network => ⟨some (.error "Network Error"), store2, 3⟩
          | .httpError _ => ⟨some (.error "Request failed"), store2, 3⟩
        | none =>
          ⟨some (.error "No token received on refresh."), ⟨none, none⟩, 2⟩
      | .network => ⟨some (.error "Network Error"), ⟨none, none⟩, 2⟩
      | .httpError s2 =>
        if isAuthStatus s2 then ⟨none, store, 2⟩
        else ⟨some (.error "Request failed"), ⟨none, none⟩, 2⟩
    else ⟨some (.error "Request failed"), store, 1⟩

/-- What `tryAutoLogin` resolves with: a value (the token string, or null),
or nothing ever — the awaited refresh never settles. -/
inductive AutoLoginReturn where
  | value (v : Option String)
  | hangs
deriving Repr, DecidableEq

/-- `tryAutoLogin`'s observable result: what it resolves with, the store it
leaves behind, and how many /auth/refresh exchanges were performed. -/
structure AutoLoginResult where
  result : AutoLoginReturn
  store : Store
  exchanges : Nat
deriving Repr, DecidableEq

/-- `tryAutoLogin` from `authService.ts`: return the stored access token
when it is truthy and not expired (no network call); otherwise, when the
stored refresh token is truthy and not expired,
`await api.post("/auth/refresh", ...)` — modelled by `awaitRefreshViaApi`,
re-entrant interceptor included. If that await never settles, neither does
`tryAutoLogin`. If it rejects, the catch returns null with the store as
the await left it. If it fulfils, destructure `{token, refreshToken}`:
when `token` is absent, `saveToken(undefined)` rejects (keytar requires a
string) into the same catch — null, store unchanged by this path; when
`token` is a string it is saved, the new refresh token is saved when
truthy, and the token is returned. When neither stored token is usable,
return null without any network call. -/
def tryAutoLogin (decode : String → DecodeResult) (now : Int) (store : Store)
    (out1 out2 out3 : ExchangeOutcome) : AutoLoginResult :=
  if truthy store.accessToken && !isTokenExpired decode now store.accessToken then
    { result := .value store.accessToken, store := store, exchanges := 0 }
  else if truthy store.refreshToken && !isTokenExpired decode now store.refreshToken then
    let aw := awaitRefreshViaApi store out1 out2 out3
    match aw.settled with
    | none => { result := .hangs, store := aw.store, exchanges := aw.exchanges }
    | some (.error _) => { result := .value none, store := aw.store, exchanges := aw.exchanges }
    | some (.ok data) =>
      match data.token with
      | none => { result := .value none, store := aw.store, exchanges := aw.exchanges }
      | some t =>
        let store1 : Store := { aw.store with accessToken := some t }
        let store2 : Store :=
          if truthy data.refreshToken then { store1 with refreshToken := data.refreshToken }
          else store1
        { result := .value (some t), store := store2, exchanges := aw.exchanges }
  else
    { result := .value none, store := store, exchanges := 0 }

/-- The error the failing renewal cycle broadcasts: the rejection reason of
the awaited exchange, or the thrown
`Error("No token received on refresh.")` when the settled response carries
no usable token. -/
def refreshError (resp : Except String RefreshResponse) : String :=
  match resp with
  | .error e => e
  | .ok _ => "No token received on refresh."

/-- A concrete JWT decoder used to instantiate theorems on closed inputs:
tokens A1 and R1 decode to payloads expiring at epoch seconds 2 and 3,
token noexp decodes to a payload without an exp claim, anything else fails
to decode. -/
def decode0 : String → DecodeResult := fun s =>
  if s = "A1" then .payload (some 2)
  else if s = "R1" then .payload (some 3)
  else if s = "noexp" then .payload none
  else .failure

theorem isAuthStatus_iff (status : Nat) :
    isAuthStatus status = true ↔ status = 401 ∨ status = 422 := by
  simp [isAuthStatus]

theorem dispatchAll_refreshing (reqs : List (Request × Nat)) :
    ∀ st : CoordState, st.isRefreshing = true →
    (∀ p ∈ reqs, p.1.retry = false ∧ isAuthStatus p.2 = true) →
    dispatchAll st reqs =
      (List.replicate reqs.length .enqueueWaiter,
       { st with failedQueue :=
           st.failedQueue ++ reqs.map (fun p => { p.1 with retry := true }) }) := by
  induction reqs with
  | nil => intro st hst h; simp [dispatchAll]
  | cons p rest ih =>
    intro st hst h
    obtain ⟨r, s⟩ := p
    have hr : r.retry = false := (h (r, s) (List.mem_cons_self _ _)).1
    have hs : isAuthStatus s = true := (h (r, s) (List.mem_cons_self _ _)).2
    have hrest : ∀ q ∈ rest, q.1.retry = false ∧ isAuthStatus q.2 = true :=
      fun q hq => h q (List.mem_cons_of_mem _ hq)
    have hih := ih ⟨true, st.failedQueue ++ [{ r with retry := true }], st.store⟩ rfl hrest
    simp [dispatchAll, handleAuthError, hr, hs, hst, hih, List.replicate_succ,
      List.append_assoc]

/-- C1: Single-flight renewal. Starting from an idle coordinator (no
renewal in flight, empty queue), dispatching N concurrent requests that
each received an authentication-failure response while unretried makes the
first caller start the refresh exchange and every later caller a queued
Waiter (exactly one `startRefresh`, never a second exchange); when the one
exchange succeeds with token `t`, every Waiter and the triggering caller
are resolved and replayed with the same new access credential
`Bearer t` (which the outbound interceptor, reading the freshly saved
token, also transmits on the replays). -/
theorem single_flight_renewal (store0 : Store) (first : Request) (s1 : Nat)
    (rest : List (Request × Nat)) (r : RefreshResponse) (t : String)
    (hfirst : first.retry = false) (hs1 : isAuthStatus s1 = true)
    (hrest : ∀ p ∈ rest, p.1.retry = false ∧ isAuthStatus p.2 = true)
    (ht : r.token = some t) (ht0 : t ≠ "") :
    (dispatchAll ⟨false, [], store0⟩ ((first, s1) :: rest)).1
      = .startRefresh :: List.replicate rest.length .enqueueWaiter ∧
    ((dispatchAll ⟨false, [], store0⟩ ((first, s1) :: rest)).1).count .startRefresh = 1 ∧
    (dispatchAll ⟨false, [], store0⟩ ((first, s1) :: rest)).2
      = ⟨true, rest.map (fun p => { p.1 with retry := true }), store0⟩ ∧
    completeRefresh (dispatchAll ⟨false, [], store0⟩ ((first, s1) :: rest)).2
        { first with retry := true } (.ok r)
      = { state := ⟨false, [], { store0 with accessToken := some t }⟩,
          waiterOutcomes := rest.map (fun p =>
            .ok { p.1 with retry := true, auth := some ("Bearer " ++ t) }),
          callerOutcome :=
            .ok { first with retry := true, auth := some ("Bearer " ++ t) } } ∧
    attachAuthHeader { store0 with accessToken := some t } (some ("Bearer " ++ t))
      = some ("Bearer " ++ t) := by
  have h1 : dispatchAll ⟨false, [], store0⟩ ((first, s1) :: rest)
      = (.startRefresh :: List.replicate rest.length .enqueueWaiter,
         ⟨true, rest.map (fun p => { p.1 with retry := true }), store0⟩) := by
    have hd := dispatchAll_refreshing rest ⟨true, [], store0⟩ rfl hrest
    simp [dispatchAll, handleAuthError, hs1, hfirst, hd]
  refine ⟨by rw [h1], ?_, by rw [h1], ?_, by simp [attachAuthHeader, ht0]⟩
  · rw [h1]
    simp [List.count_cons, List.count_replicate]
  · rw [h1]
    simp [completeRefresh, extractToken, ht, ht0, waiterContinuation,
      List.map_map, Function.comp_def, List.map_const']

/-- Witness for `single_flight_renewal`: two requests fail concurrently
(one with 401, one with 422) while the expired access token A1 is stored;
one refresh starts, one waiter queues, and a refresh success with A2
resolves and replays both with Bearer A2. -/
theorem single_flight_renewal_witness :
    (dispatchAll ⟨false, [], ⟨some "A1", some "R1"⟩⟩
        ((⟨false, none⟩, 401) :: [(⟨false, some "Bearer A1"⟩, 422)])).1
      = [.startRefresh, .enqueueWaiter] ∧
    ((dispatchAll ⟨false, [], ⟨some "A1", some "R1"⟩⟩
        ((⟨false, none⟩, 401) :: [(⟨false, some "Bearer A1"⟩, 422)])).1).count
        .startRefresh = 1 ∧
    (dispatchAll ⟨false, [], ⟨some "A1", some "R1"⟩⟩
        ((⟨false, none⟩, 401) :: [(⟨false, some "Bearer A1"⟩, 422)])).2
      = ⟨true, [⟨true, some "Bearer A1"⟩], ⟨some "A1", some "R1"⟩⟩ ∧
    completeRefresh (dispatchAll ⟨false, [], ⟨some "A1", some "R1"⟩⟩
        ((⟨false, none⟩, 401) :: [(⟨false, some "Bearer A1"⟩, 422)])).2
        ⟨true, none⟩ (.ok ⟨some "A2", none⟩)
      = ⟨⟨false, [], ⟨some "A2", some "R1"⟩⟩,
         [.ok ⟨true, some ("Bearer " ++ "A2")⟩],
         .ok ⟨true, some ("Bearer " ++ "A2")⟩⟩ ∧
    attachAuthHeader ⟨some "A2", some "R1"⟩ (some ("Bearer " ++ "A2"))
      = some ("Bearer " ++ "A2") :=
  single_flight_renewal ⟨some "A1", some "R1"⟩ ⟨false, none⟩ 401
    [(⟨false, some "Bearer A1"⟩, 422)] ⟨some "A2", none⟩ "A2"
    rfl (by decide) (by decide) rfl (by decide)

/-- Supporting lemma: WHEN a failing renewal exchange settles (the
rejection was propagated out of the re-entered interceptor, or a 2xx
response carried no usable token), the cycle equals the failure path: the
triggering caller and every queued Waiter are rejected with the same
renewal failure, both stored credentials are deleted (the electron
deleteToken removes the access and the refresh entry), and the in-flight
flag is cleared. `renewalCycle` shows this settlement happens exactly when
the rejection status is not 401/422 — see the C3 theorem for the stuck
case. -/
theorem renewal_failure_clears_session (st : CoordState) (caller : Request)
    (resp : Except String RefreshResponse)
    (hfail : ∀ r, resp = .ok r → extractToken r = none) :
    completeRefresh st caller resp = completeRefreshFailure st (refreshError resp) ∧
    (completeRefresh st caller resp).callerOutcome = .error (refreshError resp) ∧
    (completeRefresh st caller resp).waiterOutcomes
      = st.failedQueue.map (fun _ => .error (refreshError resp)) ∧
    (completeRefresh st caller resp).state.store.accessToken = none ∧
    (completeRefresh st caller resp).state.store.refreshToken = none ∧
    (completeRefresh st caller resp).state.isRefreshing = false := by
  cases resp with
  | error e =>
    simp [completeRefresh, refreshError, completeRefreshFailure, waiterContinuation]
  | ok r =>
    have h := hfail r rfl
    simp [completeRefresh, refreshError, h, completeRefreshFailure, waiterContinuation]

/-- Witness for `renewal_failure_clears_session`: a rejected exchange with
one queued waiter; everyone is rejected with the same error and the store
is emptied. -/
theorem renewal_failure_clears_session_witness :
    completeRefresh ⟨true, [⟨true, some "Bearer A1"⟩], ⟨some "A1", some "R1"⟩⟩
        ⟨true, none⟩ (.error "boom")
      = completeRefreshFailure ⟨true, [⟨true, some "Bearer A1"⟩], ⟨some "A1", some "R1"⟩⟩
          "boom" ∧
    (completeRefresh ⟨true, [⟨true, some "Bearer A1"⟩], ⟨some "A1", some "R1"⟩⟩
        ⟨true, none⟩ (.error "boom")).callerOutcome = .error "boom" ∧
    (completeRefresh ⟨true, [⟨true, some "Bearer A1"⟩], ⟨some "A1", some "R1"⟩⟩
        ⟨true, none⟩ (.error "boom")).waiterOutcomes = [.error "boom"] ∧
    (completeRefresh ⟨true, [⟨true, some "Bearer A1"⟩], ⟨some "A1", some "R1"⟩⟩
        ⟨true, none⟩ (.error "boom")).state.store.accessToken = none ∧
    (completeRefresh ⟨true, [⟨true, some "Bearer A1"⟩], ⟨some "A1", some "R1"⟩⟩
        ⟨true, none⟩ (.error "boom")).state.store.refreshToken = none ∧
    (completeRefresh ⟨true, [⟨true, some "Bearer A1"⟩], ⟨some "A1", some "R1"⟩⟩
        ⟨true, none⟩ (.error "boom")).state.isRefreshing = false :=
  renewal_failure_clears_session
    ⟨true, [⟨true, some "Bearer A1"⟩], ⟨some "A1", some "R1"⟩⟩ ⟨true, none⟩
    (.error "boom") (fun _ h => nomatch h)

/-- C3 fails on the code (code bug): the spec demands that a failed renewal
reject the caller and every Waiter, delete both credentials, and clear the
in-flight flag on every exit path ("preventing a stuck always-queue
state"). But the refresh POST goes through the intercepted api instance,
so when the remote rejects it with an authentication-failure status (401
or 422 — the likely statuses, since per C2 the POST carries the expired
access token) the rejection re-enters the response interceptor, which —
`_retry` unset on the refresh config, `isRefreshing` true — enqueues the
refresh request itself as a waiter: the awaited post never settles, no
waiter is rejected, deleteToken never runs, and the finally never clears
the flag. A non-auth-status rejection, by contrast, is propagated and the
claimed cleanup runs. -/
theorem renewal_reject_auth_status_deadlocks :
    renewalCycle ⟨true, [⟨true, none⟩], ⟨some "A1", some "R1"⟩⟩ ⟨true, none⟩
        ⟨false, some "Bearer R1"⟩ (.httpError 422)
      = .stuck ⟨true, [⟨true, none⟩, ⟨true, some "Bearer R1"⟩], ⟨some "A1", some "R1"⟩⟩ ∧
    renewalCycle ⟨true, [⟨true, none⟩], ⟨some "A1", some "R1"⟩⟩ ⟨true, none⟩
        ⟨false, some "Bearer R1"⟩ (.httpError 500)
      = .settled (completeRefreshFailure ⟨true, [⟨true, none⟩], ⟨some "A1", some "R1"⟩⟩
          "Request failed") := by
  decide

/-- C4 fails on the code: a successful refresh response that carries a new
renewal credential (refreshToken R2) does not get it persisted — the
success path of the interceptor calls only saveToken, so the stored
renewal credential stays R1. -/
theorem renewal_success_drops_refresh_token :
    (completeRefresh ⟨true, [], ⟨some "A1", some "R1"⟩⟩ ⟨true, none⟩
        (.ok ⟨some "A2", some "R2"⟩)).state.store.refreshToken = some "R1" ∧
    (completeRefresh ⟨true, [], ⟨some "A1", some "R1"⟩⟩ ⟨true, none⟩
        (.ok ⟨some "A2", some "R2"⟩)).state.store.refreshToken ≠ some "R2" := by
  decide

/-- C4 (amended): on renewal success the coordinator persists the new
access credential, and only it — the stored renewal credential is left
unchanged even when the response carries a refreshToken — before resolving
the caller and every queued Waiter with the new access credential; the
in-flight flag is cleared. -/
theorem renewal_success_persists_access (st : CoordState) (caller : Request)
    (r : RefreshResponse) (t : String) (ht : r.token = some t) (ht0 : t ≠ "") :
    (completeRefresh st caller (.ok r)).state.store.accessToken = some t ∧
    (completeRefresh st caller (.ok r)).state.store.refreshToken
      = st.store.refreshToken ∧
    (completeRefresh st caller (.ok r)).waiterOutcomes
      = st.failedQueue.map (fun w => .ok { w with auth := some ("Bearer " ++ t) }) ∧
    (completeRefresh st caller (.ok r)).callerOutcome
      = .ok { caller with auth := some ("Bearer " ++ t) } ∧
    (completeRefresh st caller (.ok r)).state.isRefreshing = false := by
  simp [completeRefresh, extractToken, ht, ht0, waiterContinuation]

/-- Witness for `renewal_success_persists_access` at a concrete success
response carrying both a token and a refreshToken. -/
theorem renewal_success_persists_access_witness :
    (completeRefresh ⟨true, [⟨true, none⟩], ⟨some "A1", some "R1"⟩⟩
        ⟨true, some "Bearer A1"⟩ (.ok ⟨some "A2", some "R2"⟩)).state.store.accessToken
      = some "A2" ∧
    (completeRefresh ⟨true, [⟨true, none⟩], ⟨some "A1", some "R1"⟩⟩
        ⟨true, some "Bearer A1"⟩ (.ok ⟨some "A2", some "R2"⟩)).state.store.refreshToken
      = some "R1" ∧
    (completeRefresh ⟨true, [⟨true, none⟩], ⟨some "A1", some "R1"⟩⟩
        ⟨true, some "Bearer A1"⟩ (.ok ⟨some "A2", some "R2"⟩)).waiterOutcomes
      = [.ok ⟨true, some ("Bearer " ++ "A2")⟩] ∧
    (completeRefresh ⟨true, [⟨true, none⟩], ⟨some "A1", some "R1"⟩⟩
        ⟨true, some "Bearer A1"⟩ (.ok ⟨some "A2", some "R2"⟩)).callerOutcome
      = .ok ⟨true, some ("Bearer " ++ "A2")⟩ ∧
    (completeRefresh ⟨true, [⟨true, none⟩], ⟨some "A1", some "R1"⟩⟩
        ⟨true, some "Bearer A1"⟩ (.ok ⟨some "A2", some "R2"⟩)).state.isRefreshing
      = false :=
  renewal_success_persists_access ⟨true, [⟨true, none⟩], ⟨some "A1", some "R1"⟩⟩
    ⟨true, some "Bearer A1"⟩ ⟨some "A2", some "R2"⟩ "A2" rfl (by decide)

/-- C5: a request whose retry marker is already set is terminal: any
further failure response — authentication-failure status or not — falls
through to Promise.reject with no renewal, no enqueue, no replay, and no
state change. -/
theorem retried_request_propagates (st : CoordState) (req : Request) (status : Nat)
    (h : req.retry = true) :
    handleAuthError st req status = (.propagate, st, req) := by
  simp [handleAuthError, h]

/-- Witness for `retried_request_propagates`: a second 401 on an already
retried request is propagated untouched. -/
theorem retried_request_propagates_witness :
    handleAuthError ⟨false, [], ⟨some "A1", some "R1"⟩⟩ ⟨true, some "Bearer A2"⟩ 401
      = (.propagate, ⟨false, [], ⟨some "A1", some "R1"⟩⟩, ⟨true, some "Bearer A2"⟩) :=
  retried_request_propagates ⟨false, [], ⟨some "A1", some "R1"⟩⟩
    ⟨true, some "Bearer A2"⟩ 401 rfl

/-- C6: for a not-yet-retried request, 401 and 422 are handled by exactly
the same renewal-and-retry path (the handler results coincide), and a
status enters the renewal path (is not propagated) precisely when it is
401 or 422. -/
theorem auth_statuses_equivalent (st : CoordState) (req : Request) (status : Nat)
    (h : req.retry = false) :
    handleAuthError st req 401 = handleAuthError st req 422 ∧
    ((handleAuthError st req status).1 ≠ .propagate ↔ status = 401 ∨ status = 422) := by
  constructor
  · simp [handleAuthError, isAuthStatus, h]
  · by_cases hs : status = 401 ∨ status = 422
    · have hA : isAuthStatus status = true := (isAuthStatus_iff status).2 hs
      rcases Bool.eq_false_or_eq_true st.isRefreshing with hb | hb <;>
        simp [handleAuthError, hA, h, hb, hs]
    · have hA : isAuthStatus status = false := by
        rcases Bool.eq_false_or_eq_true (isAuthStatus status) with hb | hb
        · exact absurd ((isAuthStatus_iff status).1 hb) hs
        · exact hb
      simp [handleAuthError, hA, hs]

/-- Witness for `auth_statuses_equivalent`: 401 and 422 produce the same
handler result on a fresh request, while 500 does not enter the renewal
path. -/
theorem auth_statuses_equivalent_witness :
    handleAuthError ⟨false, [], ⟨some "A1", some "R1"⟩⟩ ⟨false, none⟩ 401
      = handleAuthError ⟨false, [], ⟨some "A1", some "R1"⟩⟩ ⟨false, none⟩ 422 ∧
    ((handleAuthError ⟨false, [], ⟨some "A1", some "R1"⟩⟩ ⟨false, none⟩ 500).1
        ≠ .propagate ↔ 500 = 401 ∨ 500 = 422) :=
  auth_statuses_equivalent ⟨false, [], ⟨some "A1", some "R1"⟩⟩ ⟨false, none⟩ 500 rfl

/-- C2 fails on the code (code bug): the outbound request interceptor runs
on the /auth/refresh POST as well and overwrites its per-call
Authorization: Bearer <renewal credential> header with the stored — still
present, merely expired — access credential, so the transport observes the
expired access credential on the renewal exchange. This contradicts the
intent visible in the source itself (the per-call header and the comment
"Send refresh token in the Authorization header, not in the body"). With
access token expiredA and renewal credential R1 stored, the wire header is
Bearer expiredA, not Bearer R1. -/
theorem refresh_exchange_header_is_access_token :
    refreshRequestTransmittedAuth ⟨some "expiredA", some "R1"⟩
      = some ("Bearer " ++ "expiredA") ∧
    refreshRequestTransmittedAuth ⟨some "expiredA", some "R1"⟩
      ≠ some ("Bearer " ++ "R1") := by
  decide

/-- C9 fails as stated: the interceptor guard is JavaScript truthiness, not
a null check, so a stored empty-string access credential — which is
non-null — leaves the caller-supplied Authorization header in place
instead of transmitting Bearer followed by the empty credential. -/
theorem attach_header_empty_token_keeps_caller_header :
    attachAuthHeader ⟨some "", some "R1"⟩ (some "Bearer CUSTOM") = some "Bearer CUSTOM" ∧
    attachAuthHeader ⟨some "", some "R1"⟩ (some "Bearer CUSTOM")
      ≠ some ("Bearer " ++ "") := by
  decide

/-- C9 (amended): for every request through the api instance, if the stored
access credential is truthy (non-null and non-empty) then the Authorization
header actually transmitted is Bearer <stored access credential>,
regardless of any Authorization header the caller supplied in the request
config — including the /auth/refresh exchange and the review-service calls
that attach their own bearer header. -/
theorem request_interceptor_overrides_header (store : Store) (t : String)
    (callerAuth : Option String) (h : store.accessToken = some t) (ht : t ≠ "") :
    attachAuthHeader store callerAuth = some ("Bearer " ++ t) := by
  simp [attachAuthHeader, h, ht]

/-- Witness for `request_interceptor_overrides_header`: a caller-supplied
header is replaced by the stored access credential. -/
theorem request_interceptor_overrides_header_witness :
    attachAuthHeader ⟨some "A1", some "R1"⟩ (some "Bearer CUSTOM")
      = some ("Bearer " ++ "A1") :=
  request_interceptor_overrides_header ⟨some "A1", some "R1"⟩ "A1"
    (some "Bearer CUSTOM") rfl (by decide)

theorem usable_truthy (decode : String → DecodeResult) (now : Int) (o : Option String)
    (h : isTokenExpired decode now o = false) : truthy o = true := by
  cases o with
  | none => simp [isTokenExpired] at h
  | some t =>
    by_cases ht : t = ""
    · subst ht; simp [isTokenExpired] at h
    · simp [truthy, ht]

/-- C8: the Expiry Oracle fails safe: an absent credential, an empty
credential string, a decode failure, and a payload without an exp claim
are all reported expired (not usable); a credential is reported usable
only when it decodes to a payload whose expiry instant, in milliseconds,
is strictly later than now. The embedded function is pure. -/
theorem isTokenExpired_fail_safe (decode : String → DecodeResult) (now : Int)
    (t : String) :
    isTokenExpired decode now none = true ∧
    (decode t = .failure → isTokenExpired decode now (some t) = true) ∧
    (decode t = .payload none → isTokenExpired decode now (some t) = true) ∧
    (isTokenExpired decode now (some t) = false →
      ∃ e : Int, decode t = .payload (some e) ∧ now < e * 1000) := by
  refine ⟨rfl, fun hd => ?_, fun hd => ?_, fun hu => ?_⟩
  · by_cases ht : t = "" <;> simp [isTokenExpired, ht, hd]
  · by_cases ht : t = "" <;> simp [isTokenExpired, ht, hd]
  · by_cases ht : t = ""
    · simp [isTokenExpired, ht] at hu
    · cases hdt : decode t with
      | failure => simp [isTokenExpired, ht, hdt] at hu
      | payload exp =>
        cases exp with
        | none => simp [isTokenExpired, ht, hdt] at hu
        | some e =>
          by_cases he : e = 0
          · subst he; simp [isTokenExpired, ht, hdt] at hu
          · refine ⟨e, rfl, ?_⟩
            simp [isTokenExpired, ht, hdt, he] at hu
            omega

/-- Witness for `isTokenExpired_fail_safe`: absence, an undecodable token,
and a payload without exp are all expired under the concrete decoder. -/
theorem isTokenExpired_fail_safe_witness :
    isTokenExpired decode0 1000 none = true ∧
    isTokenExpired decode0 1000 (some "garbage") = true ∧
    isTokenExpired decode0 1000 (some "noexp") = true :=
  ⟨(isTokenExpired_fail_safe decode0 1000 "garbage").1,
   (isTokenExpired_fail_safe decode0 1000 "garbage").2.1 (by decide),
   (isTokenExpired_fail_safe decode0 1000 "noexp").2.2.1 (by decide)⟩

/-- C7 fails as stated: with the access credential expired and the renewal
credential usable, a refresh POST rejected with 422 re-enters the response
interceptor, which starts a second nested /auth/refresh exchange — two
renewal exchanges are attempted, not exactly one. -/
theorem tryAutoLogin_second_exchange :
    isTokenExpired decode0 2500 (some "A1") = true ∧
    isTokenExpired decode0 2500 (some "R1") = false ∧
    (tryAutoLogin decode0 2500 ⟨some "A1", some "R1"⟩ (.httpError 422)
        .network .network).exchanges = 2 ∧
    (tryAutoLogin decode0 2500 ⟨some "A1", some "R1"⟩ (.httpError 422)
        .network .network).exchanges ≠ 1 := by
  decide

/-- C7 (amended): the three-way tryAutoLogin contract. When the stored
access credential is usable (not expired per the Expiry Oracle — which
forces it to be present and truthy) it is returned directly with zero
network calls and the store untouched. Otherwise, when the stored renewal
credential is usable, a renewal exchange is attempted; unless the remote
rejects it with an authentication-failure status (401/422 — which
re-enters the interceptor renewal path and performs a further exchange),
it is the only renewal exchange, and when it succeeds with a token that
token is returned with the new access credential persisted. When neither
credential is usable the no-session value null is returned with no network
call and no error. -/
theorem tryAutoLogin_contract (decode : String → DecodeResult) (now : Int)
    (store : Store) (out1 out2 out3 : ExchangeOutcome)
    (data : RefreshResponse) (t : String) :
    (isTokenExpired decode now store.accessToken = false →
      tryAutoLogin decode now store out1 out2 out3
        = ⟨.value store.accessToken, store, 0⟩) ∧
    (isTokenExpired decode now store.accessToken = true →
      isTokenExpired decode now store.refreshToken = false →
      (∀ s, out1 = .httpError s → isAuthStatus s = false) →
      (tryAutoLogin decode now store out1 out2 out3).exchanges = 1 ∧
      (out1 = .ok data → data.token = some t →
        (tryAutoLogin decode now store out1 out2 out3).result = .value (some t) ∧
        (tryAutoLogin decode now store out1 out2 out3).store.accessToken = some t)) ∧
    (isTokenExpired decode now store.accessToken = true →
      isTokenExpired decode now store.refreshToken = true →
      tryAutoLogin decode now store out1 out2 out3 = ⟨.value none, store, 0⟩) := by
  refine ⟨fun ha => ?_, fun ha hr hns => ⟨?_, ?_⟩, fun ha hr => ?_⟩
  · have hta := usable_truthy decode now store.accessToken ha
    simp [tryAutoLogin, hta, ha]
  · have htr := usable_truthy decode now store.refreshToken hr
    cases out1 with
    | ok d =>
      cases hd : d.token <;>
        simp [tryAutoLogin, ha, hr, htr, awaitRefreshViaApi, hd]
    | httpError s =>
      have hs := hns s rfl
      simp [tryAutoLogin, ha, hr, htr, awaitRefreshViaApi, hs]
    | network =>
      simp [tryAutoLogin, ha, hr, htr, awaitRefreshViaApi]
  · have htr := usable_truthy decode now store.refreshToken hr
    rintro rfl hto
    by_cases hb : truthy data.refreshToken = true <;>
      simp [tryAutoLogin, ha, hr, htr, awaitRefreshViaApi, hto, hb]
  · simp [tryAutoLogin, ha, hr]

/-- Witness for `tryAutoLogin_contract`: access token A1 expired and
renewal token R1 usable at now = 2500; the exchange fulfils with A2, which
is returned and persisted after exactly one exchange. -/
theorem tryAutoLogin_contract_witness :
    (tryAutoLogin decode0 2500 ⟨some "A1", some "R1"⟩ (.ok ⟨some "A2", none⟩)
        .network .network).exchanges = 1 ∧
    (tryAutoLogin decode0 2500 ⟨some "A1", some "R1"⟩ (.ok ⟨some "A2", none⟩)
        .network .network).result = .value (some "A2") ∧
    (tryAutoLogin decode0 2500 ⟨some "A1", some "R1"⟩ (.ok ⟨some "A2", none⟩)
        .network .network).store.accessToken = some "A2" := by
  have h := (tryAutoLogin_contract decode0 2500 ⟨some "A1", some "R1"⟩
    (.ok ⟨some "A2", none⟩) .network .network ⟨some "A2", none⟩ "A2").2.1
    (by decide) (by decide) (fun s hs => nomatch hs)
  exact ⟨h.1, (h.2 rfl rfl).1, (h.2 rfl rfl).2⟩

/-- C10 fails as stated: when the tryAutoLogin refresh POST is rejected
with 422, the response interceptor runs its own renewal path; its nested
exchange failing (here: network error) makes the interceptor catch call
deleteToken, wiping BOTH stored credentials before tryAutoLogin's catch
returns null — the store is not left unchanged. -/
theorem tryAutoLogin_reject_422_wipes_store :
    isTokenExpired decode0 2500 (some "A1") = true ∧
    isTokenExpired decode0 2500 (some "R1") = false ∧
    tryAutoLogin decode0 2500 ⟨some "A1", some "R1"⟩ (.httpError 422) .network .network
      = ⟨.value none, ⟨none, none⟩, 2⟩ ∧
    (tryAutoLogin decode0 2500 ⟨some "A1", some "R1"⟩ (.httpError 422)
        .network .network).store ≠ ⟨some "A1", some "R1"⟩ := by
  decide

/-- C10 (amended): when the refresh POST awaited inside tryAutoLogin fails
with a network error or a rejection whose status is not an
authentication-failure status, the catch returns null (treated as logged
out) and the credential store is left exactly as it was — neither stored
credential is deleted, unlike the interceptor renewal failure path. (A
401/422 rejection instead re-enters the interceptor renewal path, which
can delete both credentials or never settle — see the counterexample.) -/
theorem tryAutoLogin_failure_keeps_store (decode : String → DecodeResult) (now : Int)
    (store : Store) (out1 out2 out3 : ExchangeOutcome)
    (ha : isTokenExpired decode now store.accessToken = true)
    (hr : isTokenExpired decode now store.refreshToken = false)
    (hfail : out1 = .network ∨ ∃ s, out1 = .httpError s ∧ isAuthStatus s = false) :
    tryAutoLogin decode now store out1 out2 out3 = ⟨.value none, store, 1⟩ := by
  have htr := usable_truthy decode now store.refreshToken hr
  rcases hfail with rfl | ⟨s, rfl, hs⟩
  · simp [tryAutoLogin, ha, hr, htr, awaitRefreshViaApi]
  · simp [tryAutoLogin, ha, hr, htr, awaitRefreshViaApi, hs]

/-- Witness for `tryAutoLogin_failure_keeps_store`: a 500-rejected exchange
at now = 2500 returns null and leaves both stored credentials in place. -/
theorem tryAutoLogin_failure_keeps_store_witness :
    tryAutoLogin decode0 2500 ⟨some "A1", some "R1"⟩ (.httpError 500) .network .network
      = ⟨.value none, ⟨some "A1", some "R1"⟩, 1⟩ :=
  tryAutoLogin_failure_keeps_store decode0 2500 ⟨some "A1", some "R1"⟩ (.httpError 500)
    .network .network (by decide) (by decide) (Or.inr ⟨500, rfl, by decide⟩)
